import Mathlib

/-!
Verification of the Autoswap router program (Rust sources under src/).

Shallow embedding conventions:
* `u64` values are `Nat` with explicit `% 2 ^ 64` wherever the Rust code can
  overflow; byte buffers are `List Nat` whose entries are byte values.
* Fallible Rust functions returning `Result<_, ProgramError>` become
  `Except ProgramError _`.
* Account handles (`AccountInfo` / `Pubkey`) are identified by their pubkey,
  modelled as `Nat`.
* Code of the repository that is not present under src/ (utils/account.rs,
  utils/raydium.rs, protocol/raydium.rs) and external collaborators
  (solana_program, spl_token) are modelled from the spec as abstract
  environment parameters; each such definition is marked `Modelled from the
  spec:` in its doc comment.
-/

deriving instance DecidableEq for Except

/-- Subset of `solana_program::program_error::ProgramError` used by the
router, plus the two balance-guard errors of spec §4.4 (their concrete
error values live in utils/account.rs, which is not under src/; they are
modelled from the spec as distinct error kinds). -/
inductive ProgramError where
  | AccountDataTooSmall
  | InvalidInstructionData
  | IncorrectProgramId
  | NotEnoughAccountKeys
  | UnexpectedBalanceChange
  | InsufficientOutput
  | Custom (code : Nat)
deriving DecidableEq, Repr

/-- Little-endian bytes of a `u64` value, as written by `u64::to_le_bytes`
in the Rust packers (the `% 2 ^ 64` reduction is the identity on actual
`u64` values). -/
def u64ToLe (x : Nat) : List Nat :=
  [x % 256, x / 256 % 256, x / 65536 % 256, x / 16777216 % 256,
   x / 4294967296 % 256, x / 1099511627776 % 256,
   x / 281474976710656 % 256, x / 72057594037927936 % 256]

/-- Value of eight little-endian bytes, as read by `u64::from_le_bytes` in
the Rust unpackers. -/
def leToU64 (b0 b1 b2 b3 b4 b5 b6 b7 : Nat) : Nat :=
  b0 + 256 * b1 + 65536 * b2 + 16777216 * b3 + 4294967296 * b4 +
  1099511627776 * b5 + 281474976710656 * b6 + 72057594037927936 * b7

/-- src/utils/pack.rs: `check_data_len` fails with `AccountDataTooSmall`
when the slice is shorter than `min_len`. -/
def check_data_len (data : List Nat) (min_len : Nat) : Except ProgramError Unit :=
  if data.length < min_len then .error .AccountDataTooSmall else .ok ()

/-- src/instruction.rs: the `AmmInstruction` enum; all fields are `u64`. -/
inductive AmmInstruction where
  | BeforeTransfer (amount : Nat)
  | Swap (token_a_amount_in token_b_amount_in min_token_amount_out : Nat)
  | AfterTransfer (amount : Nat)
  | CreateAccount (size : Nat)
  | Harvest (amount : Nat)
deriving DecidableEq, Repr

namespace AmmInstruction

/-- `AmmInstructionType as u8`: the tag byte, assigned by declaration order
starting at 0. -/
def tagOf : AmmInstruction → Nat
  | .BeforeTransfer _ => 0
  | .Swap _ _ _ => 1
  | .AfterTransfer _ => 2
  | .CreateAccount _ => 3
  | .Harvest _ => 4

/-- Declared fixed length of each variant: `AmmInstruction::LEN = 9` or
`AmmInstruction::SWAP_LEN = 25`. -/
def lenOf : AmmInstruction → Nat
  | .Swap _ _ _ => 25
  | _ => 9

/-- Fixed body length implied by a tag byte (9 for tags 0, 2, 3, 4 and 25
for tag 1 = Swap). -/
def tagLen (t : Nat) : Nat := if t = 1 then 25 else 9

/-- The bytes the packers write into the start of the output buffer: the
tag byte followed by the fields in declaration order as little-endian
`u64`s. -/
def encodeBytes : AmmInstruction → List Nat
  | .BeforeTransfer amount => 0 :: u64ToLe amount
  | .Swap a b m => 1 :: (u64ToLe a ++ u64ToLe b ++ u64ToLe m)
  | .AfterTransfer amount => 2 :: u64ToLe amount
  | .CreateAccount size => 3 :: u64ToLe size
  | .Harvest amount => 4 :: u64ToLe amount

/-- src/instruction.rs: `AmmInstruction::pack`. Each `pack_*` helper checks
that the output buffer holds at least the variant length, overwrites that
prefix with the tag byte and the little-endian fields, leaves the rest of
the buffer unchanged, and returns the number of bytes written. The result
is the updated buffer together with the returned length. -/
def pack (v : AmmInstruction) (output : List Nat) :
    Except ProgramError (List Nat × Nat) :=
  match check_data_len output v.lenOf with
  | .error e => .error e
  | .ok _ => .ok (v.encodeBytes ++ output.drop v.lenOf, v.lenOf)

/-- src/instruction.rs: `unpack_before_transfer` (tag 0). -/
def unpack_before_transfer (input : List Nat) : Except ProgramError AmmInstruction :=
  match check_data_len input 9 with
  | .error e => .error e
  | .ok _ =>
    .ok (.BeforeTransfer (leToU64 (input.getD 1 0) (input.getD 2 0)
      (input.getD 3 0) (input.getD 4 0) (input.getD 5 0) (input.getD 6 0)
      (input.getD 7 0) (input.getD 8 0)))

/-- src/instruction.rs: `unpack_swap` (tag 1). -/
def unpack_swap (input : List Nat) : Except ProgramError AmmInstruction :=
  match check_data_len input 25 with
  | .error e => .error e
  | .ok _ =>
    .ok (.Swap
      (leToU64 (input.getD 1 0) (input.getD 2 0) (input.getD 3 0)
        (input.getD 4 0) (input.getD 5 0) (input.getD 6 0) (input.getD 7 0)
        (input.getD 8 0))
      (leToU64 (input.getD 9 0) (input.getD 10 0) (input.getD 11 0)
        (input.getD 12 0) (input.getD 13 0) (input.getD 14 0)
        (input.getD 15 0) (input.getD 16 0))
      (leToU64 (input.getD 17 0) (input.getD 18 0) (input.getD 19 0)
        (input.getD 20 0) (input.getD 21 0) (input.getD 22 0)
        (input.getD 23 0) (input.getD 24 0)))

/-- src/instruction.rs: `unpack_after_transfer` (tag 2). -/
def unpack_after_transfer (input : List Nat) : Except ProgramError AmmInstruction :=
  match check_data_len input 9 with
  | .error e => .error e
  | .ok _ =>
    .ok (.AfterTransfer (leToU64 (input.getD 1 0) (input.getD 2 0)
      (input.getD 3 0) (input.getD 4 0) (input.getD 5 0) (input.getD 6 0)
      (input.getD 7 0) (input.getD 8 0)))

/-- src/instruction.rs: `unpack_create_account` (tag 3). -/
def unpack_create_account (input : List Nat) : Except ProgramError AmmInstruction :=
  match check_data_len input 9 with
  | .error e => .error e
  | .ok _ =>
    .ok (.CreateAccount (leToU64 (input.getD 1 0) (input.getD 2 0)
      (input.getD 3 0) (input.getD 4 0) (input.getD 5 0) (input.getD 6 0)
      (input.getD 7 0) (input.getD 8 0)))

/-- src/instruction.rs: `unpack_harvest` (tag 4). -/
def unpack_harvest (input : List Nat) : Except ProgramError AmmInstruction :=
  match check_data_len input 9 with
  | .error e => .error e
  | .ok _ =>
    .ok (.Harvest (leToU64 (input.getD 1 0) (input.getD 2 0)
      (input.getD 3 0) (input.getD 4 0) (input.getD 5 0) (input.getD 6 0)
      (input.getD 7 0) (input.getD 8 0)))

/-- src/instruction.rs: `AmmInstruction::unpack`. Requires at least one
byte (`AccountDataTooSmall` otherwise), maps the tag through
`AmmInstructionType::try_from_primitive` (`InvalidInstructionData` for a
tag outside 0..=4), then dispatches to the per-tag unpacker. -/
def unpack (input : List Nat) : Except ProgramError AmmInstruction :=
  match input with
  | [] => .error .AccountDataTooSmall
  | t :: _ =>
    if t = 0 then unpack_before_transfer input
    else if t = 1 then unpack_swap input
    else if t = 2 then unpack_after_transfer input
    else if t = 3 then unpack_create_account input
    else if t = 4 then unpack_harvest input
    else .error .InvalidInstructionData

/-- All fields of the instruction are actual `u64` values. -/
def u64Fields : AmmInstruction → Bool
  | .BeforeTransfer a => a < 2 ^ 64
  | .Swap a b m => a < 2 ^ 64 && b < 2 ^ 64 && m < 2 ^ 64
  | .AfterTransfer a => a < 2 ^ 64
  | .CreateAccount s => s < 2 ^ 64
  | .Harvest a => a < 2 ^ 64

/-- A well-formed encoded buffer: nonempty, known tag, exactly the fixed
length for that tag, and every entry an actual byte. -/
def wfEncoded : List Nat → Bool
  | [] => false
  | t :: rest =>
    t ≤ 4 && (t :: rest).length = tagLen t && (t :: rest).all (fun b => b < 256)

end AmmInstruction

namespace AmmInstruction

theorem leToU64_digits (x : Nat) (h : x < 2 ^ 64) :
    leToU64 (x % 256) (x / 256 % 256) (x / 65536 % 256) (x / 16777216 % 256)
      (x / 4294967296 % 256) (x / 1099511627776 % 256)
      (x / 281474976710656 % 256) (x / 72057594037927936 % 256) = x := by
  simp only [leToU64]
  omega

theorem u64ToLe_leToU64 (b0 b1 b2 b3 b4 b5 b6 b7 : Nat)
    (h0 : b0 < 256) (h1 : b1 < 256) (h2 : b2 < 256) (h3 : b3 < 256)
    (h4 : b4 < 256) (h5 : b5 < 256) (h6 : b6 < 256) (h7 : b7 < 256) :
    u64ToLe (leToU64 b0 b1 b2 b3 b4 b5 b6 b7) =
      [b0, b1, b2, b3, b4, b5, b6, b7] := by
  simp only [u64ToLe, leToU64, List.cons.injEq, and_true]
  refine ⟨?_, ?_, ?_, ?_, ?_, ?_, ?_, ?_⟩ <;> omega

theorem unpack_cons0 (b0 b1 b2 b3 b4 b5 b6 b7 : Nat) (tail : List Nat) :
    unpack (0 :: b0 :: b1 :: b2 :: b3 :: b4 :: b5 :: b6 :: b7 :: tail) =
      .ok (.BeforeTransfer (leToU64 b0 b1 b2 b3 b4 b5 b6 b7)) := by
  simp [unpack, unpack_before_transfer, check_data_len]
  rw [if_neg (by omega)]

theorem unpack_cons1 (b0 b1 b2 b3 b4 b5 b6 b7 b8 b9 b10 b11 b12 b13 b14 b15
    b16 b17 b18 b19 b20 b21 b22 b23 : Nat) (tail : List Nat) :
    unpack (1 :: b0 :: b1 :: b2 :: b3 :: b4 :: b5 :: b6 :: b7 :: b8 :: b9 ::
      b10 :: b11 :: b12 :: b13 :: b14 :: b15 :: b16 :: b17 :: b18 :: b19 ::
      b20 :: b21 :: b22 :: b23 :: tail) =
      .ok (.Swap (leToU64 b0 b1 b2 b3 b4 b5 b6 b7)
        (leToU64 b8 b9 b10 b11 b12 b13 b14 b15)
        (leToU64 b16 b17 b18 b19 b20 b21 b22 b23)) := by
  simp [unpack, unpack_swap, check_data_len]
  rw [if_neg (by omega)]

theorem unpack_cons2 (b0 b1 b2 b3 b4 b5 b6 b7 : Nat) (tail : List Nat) :
    unpack (2 :: b0 :: b1 :: b2 :: b3 :: b4 :: b5 :: b6 :: b7 :: tail) =
      .ok (.AfterTransfer (leToU64 b0 b1 b2 b3 b4 b5 b6 b7)) := by
  simp [unpack, unpack_after_transfer, check_data_len]
  rw [if_neg (by omega)]

theorem unpack_cons3 (b0 b1 b2 b3 b4 b5 b6 b7 : Nat) (tail : List Nat) :
    unpack (3 :: b0 :: b1 :: b2 :: b3 :: b4 :: b5 :: b6 :: b7 :: tail) =
      .ok (.CreateAccount (leToU64 b0 b1 b2 b3 b4 b5 b6 b7)) := by
  simp [unpack, unpack_create_account, check_data_len]
  rw [if_neg (by omega)]

theorem unpack_cons4 (b0 b1 b2 b3 b4 b5 b6 b7 : Nat) (tail : List Nat) :
    unpack (4 :: b0 :: b1 :: b2 :: b3 :: b4 :: b5 :: b6 :: b7 :: tail) =
      .ok (.Harvest (leToU64 b0 b1 b2 b3 b4 b5 b6 b7)) := by
  simp [unpack, unpack_harvest, check_data_len]
  rw [if_neg (by omega)]

theorem unpack_encodeBytes_append (v : AmmInstruction) (junk : List Nat)
    (h : v.u64Fields = true) : unpack (v.encodeBytes ++ junk) = .ok v := by
  cases v with
  | BeforeTransfer a =>
    simp only [u64Fields, decide_eq_true_eq] at h
    have hc := unpack_cons0 (a % 256) (a / 256 % 256) (a / 65536 % 256)
      (a / 16777216 % 256) (a / 4294967296 % 256) (a / 1099511627776 % 256)
      (a / 281474976710656 % 256) (a / 72057594037927936 % 256) junk
    simp only [encodeBytes, u64ToLe, List.cons_append, List.nil_append]
    rw [hc, leToU64_digits a h]
  | Swap a b m =>
    simp only [u64Fields, Bool.and_eq_true, decide_eq_true_eq] at h
    obtain ⟨⟨ha, hb⟩, hm⟩ := h
    have hc := unpack_cons1 (a % 256) (a / 256 % 256) (a / 65536 % 256)
      (a / 16777216 % 256) (a / 4294967296 % 256) (a / 1099511627776 % 256)
      (a / 281474976710656 % 256) (a / 72057594037927936 % 256)
      (b % 256) (b / 256 % 256) (b / 65536 % 256)
      (b / 16777216 % 256) (b / 4294967296 % 256) (b / 1099511627776 % 256)
      (b / 281474976710656 % 256) (b / 72057594037927936 % 256)
      (m % 256) (m / 256 % 256) (m / 65536 % 256)
      (m / 16777216 % 256) (m / 4294967296 % 256) (m / 1099511627776 % 256)
      (m / 281474976710656 % 256) (m / 72057594037927936 % 256) junk
    simp only [encodeBytes, u64ToLe, List.cons_append, List.nil_append,
      List.append_assoc]
    rw [hc, leToU64_digits a ha, leToU64_digits b hb, leToU64_digits m hm]
  | AfterTransfer a =>
    simp only [u64Fields, decide_eq_true_eq] at h
    have hc := unpack_cons2 (a % 256) (a / 256 % 256) (a / 65536 % 256)
      (a / 16777216 % 256) (a / 4294967296 % 256) (a / 1099511627776 % 256)
      (a / 281474976710656 % 256) (a / 72057594037927936 % 256) junk
    simp only [encodeBytes, u64ToLe, List.cons_append, List.nil_append]
    rw [hc, leToU64_digits a h]
  | CreateAccount a =>
    simp only [u64Fields, decide_eq_true_eq] at h
    have hc := unpack_cons3 (a % 256) (a / 256 % 256) (a / 65536 % 256)
      (a / 16777216 % 256) (a / 4294967296 % 256) (a / 1099511627776 % 256)
      (a / 281474976710656 % 256) (a / 72057594037927936 % 256) junk
    simp only [encodeBytes, u64ToLe, List.cons_append, List.nil_append]
    rw [hc, leToU64_digits a h]
  | Harvest a =>
    simp only [u64Fields, decide_eq_true_eq] at h
    have hc := unpack_cons4 (a % 256) (a / 256 % 256) (a / 65536 % 256)
      (a / 16777216 % 256) (a / 4294967296 % 256) (a / 1099511627776 % 256)
      (a / 281474976710656 % 256) (a / 72057594037927936 % 256) junk
    simp only [encodeBytes, u64ToLe, List.cons_append, List.nil_append]
    rw [hc, leToU64_digits a h]

end AmmInstruction

example : AmmInstruction.unpack [] = .error .AccountDataTooSmall := by decide

example :
    AmmInstruction.unpack (AmmInstruction.encodeBytes (.Swap 100 0 95)) =
      .ok (.Swap 100 0 95) := by decide

example :
    AmmInstruction.encodeBytes (.Swap 100 0 95) =
      [1, 100, 0, 0, 0, 0, 0, 0, 0, 0, 0, 0, 0, 0, 0, 0, 0,
       95, 0, 0, 0, 0, 0, 0, 0] := by decide

namespace AmmInstruction

theorem pack_of_unpack (b : List Nat) (hw : wfEncoded b = true)
    (v : AmmInstruction) (hu : unpack b = .ok v) :
    v.pack b = .ok (b, b.length) := by
  rcases b with _ | ⟨t, rest⟩
  · simp [wfEncoded] at hw
  simp only [wfEncoded, Bool.and_eq_true, decide_eq_true_eq] at hw
  obtain ⟨⟨ht4, hlen⟩, hall⟩ := hw
  interval_cases t
  · -- tag 0
    rcases rest with _ | ⟨b0, _ | ⟨b1, _ | ⟨b2, _ | ⟨b3, _ | ⟨b4, _ | ⟨b5, _ | ⟨b6, _ | ⟨b7, _ | ⟨b8, rest⟩⟩⟩⟩⟩⟩⟩⟩⟩
    all_goals simp [tagLen] at hlen
    simp only [List.all_cons, List.all_nil, Bool.and_eq_true,
      decide_eq_true_eq, and_true] at hall
    obtain ⟨-, h0, h1, h2, h3, h4, h5, h6, h7⟩ := hall
    rw [unpack_cons0] at hu
    simp only [Except.ok.injEq] at hu
    subst hu
    simp [pack, check_data_len, encodeBytes, lenOf,
      u64ToLe_leToU64 b0 b1 b2 b3 b4 b5 b6 b7 h0 h1 h2 h3 h4 h5 h6 h7]
  · -- tag 1
    rcases rest with _ | ⟨b0, _ | ⟨b1, _ | ⟨b2, _ | ⟨b3, _ | ⟨b4, _ | ⟨b5, _ | ⟨b6, _ | ⟨b7, _ | ⟨b8, _ | ⟨b9, _ | ⟨b10, _ | ⟨b11, _ | ⟨b12, _ | ⟨b13, _ | ⟨b14, _ | ⟨b15, _ | ⟨b16, _ | ⟨b17, _ | ⟨b18, _ | ⟨b19, _ | ⟨b20, _ | ⟨b21, _ | ⟨b22, _ | ⟨b23, _ | ⟨b24, rest⟩⟩⟩⟩⟩⟩⟩⟩⟩⟩⟩⟩⟩⟩⟩⟩⟩⟩⟩⟩⟩⟩⟩⟩⟩
    all_goals simp [tagLen] at hlen
    simp only [List.all_cons, List.all_nil, Bool.and_eq_true,
      decide_eq_true_eq, and_true] at hall
    obtain ⟨-, h0, h1, h2, h3, h4, h5, h6, h7, h8, h9, h10, h11, h12, h13, h14, h15, h16, h17, h18, h19, h20, h21, h22, h23⟩ := hall
    rw [unpack_cons1] at hu
    simp only [Except.ok.injEq] at hu
    subst hu
    simp [pack, check_data_len, encodeBytes, lenOf,
      u64ToLe_leToU64 b0 b1 b2 b3 b4 b5 b6 b7 h0 h1 h2 h3 h4 h5 h6 h7,
      u64ToLe_leToU64 b8 b9 b10 b11 b12 b13 b14 b15 h8 h9 h10 h11 h12 h13 h14 h15,
      u64ToLe_leToU64 b16 b17 b18 b19 b20 b21 b22 b23 h16 h17 h18 h19 h20 h21 h22 h23]
  · -- tag 2
    rcases rest with _ | ⟨b0, _ | ⟨b1, _ | ⟨b2, _ | ⟨b3, _ | ⟨b4, _ | ⟨b5, _ | ⟨b6, _ | ⟨b7, _ | ⟨b8, rest⟩⟩⟩⟩⟩⟩⟩⟩⟩
    all_goals simp [tagLen] at hlen
    simp only [List.all_cons, List.all_nil, Bool.and_eq_true,
      decide_eq_true_eq, and_true] at hall
    obtain ⟨-, h0, h1, h2, h3, h4, h5, h6, h7⟩ := hall
    rw [unpack_cons2] at hu
    simp only [Except.ok.injEq] at hu
    subst hu
    simp [pack, check_data_len, encodeBytes, lenOf,
      u64ToLe_leToU64 b0 b1 b2 b3 b4 b5 b6 b7 h0 h1 h2 h3 h4 h5 h6 h7]
  · -- tag 3
    rcases rest with _ | ⟨b0, _ | ⟨b1, _ | ⟨b2, _ | ⟨b3, _ | ⟨b4, _ | ⟨b5, _ | ⟨b6, _ | ⟨b7, _ | ⟨b8, rest⟩⟩⟩⟩⟩⟩⟩⟩⟩
    all_goals simp [tagLen] at hlen
    simp only [List.all_cons, List.all_nil, Bool.and_eq_true,
      decide_eq_true_eq, and_true] at hall
    obtain ⟨-, h0, h1, h2, h3, h4, h5, h6, h7⟩ := hall
    rw [unpack_cons3] at hu
    simp only [Except.ok.injEq] at hu
    subst hu
    simp [pack, check_data_len, encodeBytes, lenOf,
      u64ToLe_leToU64 b0 b1 b2 b3 b4 b5 b6 b7 h0 h1 h2 h3 h4 h5 h6 h7]
  · -- tag 4
    rcases rest with _ | ⟨b0, _ | ⟨b1, _ | ⟨b2, _ | ⟨b3, _ | ⟨b4, _ | ⟨b5, _ | ⟨b6, _ | ⟨b7, _ | ⟨b8, rest⟩⟩⟩⟩⟩⟩⟩⟩⟩
    all_goals simp [tagLen] at hlen
    simp only [List.all_cons, List.all_nil, Bool.and_eq_true,
      decide_eq_true_eq, and_true] at hall
    obtain ⟨-, h0, h1, h2, h3, h4, h5, h6, h7⟩ := hall
    rw [unpack_cons4] at hu
    simp only [Except.ok.injEq] at hu
    subst hu
    simp [pack, check_data_len, encodeBytes, lenOf,
      u64ToLe_leToU64 b0 b1 b2 b3 b4 b5 b6 b7 h0 h1 h2 h3 h4 h5 h6 h7]

end AmmInstruction

/-- Claim C2: for every `AmmInstruction` value `v` and every output buffer
at least as long as the variant length, `pack` succeeds, returns the
variant length (9, or 25 for Swap), overwrites the buffer prefix with the
tag byte followed by the fields in declaration order as little-endian
`u64`s (`encodeBytes`), and `unpack` of the resulting buffer returns `v`;
conversely, for every well-formed encoded buffer `b`, packing `unpack b`
into `b` reproduces `b` exactly. -/
theorem pack_unpack_round_trip :
    (∀ (v : AmmInstruction) (output : List Nat), v.u64Fields = true →
        v.lenOf ≤ output.length →
        v.pack output = .ok (v.encodeBytes ++ output.drop v.lenOf, v.lenOf) ∧
        v.encodeBytes.length = v.lenOf ∧
        v.encodeBytes.headD 0 = v.tagOf ∧
        AmmInstruction.unpack (v.encodeBytes ++ output.drop v.lenOf) = .ok v) ∧
    (∀ (b : List Nat), AmmInstruction.wfEncoded b = true →
        ∀ v, AmmInstruction.unpack b = .ok v → v.pack b = .ok (b, b.length)) := by
  constructor
  · intro v output hf hlen
    refine ⟨?_, ?_, ?_, AmmInstruction.unpack_encodeBytes_append v _ hf⟩
    · simp only [AmmInstruction.pack, check_data_len]
      rw [if_neg (by omega)]
    · cases v <;> simp [AmmInstruction.encodeBytes, AmmInstruction.lenOf, u64ToLe]
    · cases v <;> rfl
  · exact AmmInstruction.pack_of_unpack

/-- Witness for C2 at the concrete instruction Swap(100, 0, 95) packed into
a 25-byte buffer of sevens: pack succeeds with length 25 and the spec §8
byte layout, and unpacking the written bytes restores the value. -/
theorem pack_unpack_round_trip_witness :
    (AmmInstruction.Swap 100 0 95).pack (List.replicate 25 7) =
      .ok ([1, 100, 0, 0, 0, 0, 0, 0, 0, 0, 0, 0, 0, 0, 0, 0, 0,
            95, 0, 0, 0, 0, 0, 0, 0], 25) ∧
    AmmInstruction.unpack
        [1, 100, 0, 0, 0, 0, 0, 0, 0, 0, 0, 0, 0, 0, 0, 0, 0,
         95, 0, 0, 0, 0, 0, 0, 0] = .ok (.Swap 100 0 95) := by
  have h := pack_unpack_round_trip.1 (.Swap 100 0 95) (List.replicate 25 7)
    (by decide) (by decide)
  obtain ⟨hp, -, -, hu⟩ := h
  constructor
  · rw [hp]; decide
  · have : AmmInstruction.encodeBytes (.Swap 100 0 95) ++
        (List.replicate 25 7).drop (AmmInstruction.lenOf (.Swap 100 0 95)) =
        [1, 100, 0, 0, 0, 0, 0, 0, 0, 0, 0, 0, 0, 0, 0, 0, 0,
         95, 0, 0, 0, 0, 0, 0, 0] := by decide
    rwa [this] at hu

/-- Claim C3: `unpack` fails exactly when the input is empty
(`AccountDataTooSmall`, the TruncatedInput of the spec), when the tag byte
is outside 0..=4 (`InvalidInstructionData`, the UnknownTag of the spec), or
when the input is shorter than the fixed length the tag implies
(`AccountDataTooSmall`); an input longer than the tag length is not
rejected: the surplus bytes are ignored and unpacking succeeds with the
same result as unpacking the fixed-length prefix. -/
theorem unpack_error_conditions (b : List Nat) :
    (b = [] → AmmInstruction.unpack b = .error .AccountDataTooSmall) ∧
    (∀ t rest, b = t :: rest → 4 < t →
        AmmInstruction.unpack b = .error .InvalidInstructionData) ∧
    (∀ t rest, b = t :: rest → t ≤ 4 →
        b.length < AmmInstruction.tagLen t →
        AmmInstruction.unpack b = .error .AccountDataTooSmall) ∧
    (∀ t rest, b = t :: rest → t ≤ 4 →
        AmmInstruction.tagLen t ≤ b.length →
        AmmInstruction.unpack b =
          AmmInstruction.unpack (b.take (AmmInstruction.tagLen t)) ∧
        ∃ v, AmmInstruction.unpack b = .ok v) := by
  refine ⟨?_, ?_, ?_, ?_⟩
  · rintro rfl
    rfl
  · rintro t rest rfl ht
    simp only [AmmInstruction.unpack]
    rw [if_neg (by omega), if_neg (by omega), if_neg (by omega),
      if_neg (by omega), if_neg (by omega)]
  · rintro t rest rfl ht hlen
    interval_cases t
    · simp [AmmInstruction.tagLen] at hlen
      simp [AmmInstruction.unpack, AmmInstruction.unpack_before_transfer,
        check_data_len]
      rw [if_pos (by omega)]
    · simp [AmmInstruction.tagLen] at hlen
      simp [AmmInstruction.unpack, AmmInstruction.unpack_swap, check_data_len]
      rw [if_pos (by omega)]
    · simp [AmmInstruction.tagLen] at hlen
      simp [AmmInstruction.unpack, AmmInstruction.unpack_after_transfer,
        check_data_len]
      rw [if_pos (by omega)]
    · simp [AmmInstruction.tagLen] at hlen
      simp [AmmInstruction.unpack, AmmInstruction.unpack_create_account,
        check_data_len]
      rw [if_pos (by omega)]
    · simp [AmmInstruction.tagLen] at hlen
      simp [AmmInstruction.unpack, AmmInstruction.unpack_harvest,
        check_data_len]
      rw [if_pos (by omega)]
  · rintro t rest rfl ht hlen
    interval_cases t
    · rcases rest with _ | ⟨b0, _ | ⟨b1, _ | ⟨b2, _ | ⟨b3, _ | ⟨b4, _ | ⟨b5, _ | ⟨b6, _ | ⟨b7, tail⟩⟩⟩⟩⟩⟩⟩⟩
      all_goals simp [AmmInstruction.tagLen] at hlen
      have htake : (0 :: b0 :: b1 :: b2 :: b3 :: b4 :: b5 :: b6 :: b7 :: tail).take (AmmInstruction.tagLen 0) = [0, b0, b1, b2, b3, b4, b5, b6, b7] := rfl
      rw [htake]
      constructor
      · rw [AmmInstruction.unpack_cons0 b0 b1 b2 b3 b4 b5 b6 b7 tail, AmmInstruction.unpack_cons0 b0 b1 b2 b3 b4 b5 b6 b7 []]
      · exact ⟨_, AmmInstruction.unpack_cons0 b0 b1 b2 b3 b4 b5 b6 b7 tail⟩
    · rcases rest with _ | ⟨b0, _ | ⟨b1, _ | ⟨b2, _ | ⟨b3, _ | ⟨b4, _ | ⟨b5, _ | ⟨b6, _ | ⟨b7, _ | ⟨b8, _ | ⟨b9, _ | ⟨b10, _ | ⟨b11, _ | ⟨b12, _ | ⟨b13, _ | ⟨b14, _ | ⟨b15, _ | ⟨b16, _ | ⟨b17, _ | ⟨b18, _ | ⟨b19, _ | ⟨b20, _ | ⟨b21, _ | ⟨b22, _ | ⟨b23, tail⟩⟩⟩⟩⟩⟩⟩⟩⟩⟩⟩⟩⟩⟩⟩⟩⟩⟩⟩⟩⟩⟩⟩⟩
      all_goals simp [AmmInstruction.tagLen] at hlen
      have htake : (1 :: b0 :: b1 :: b2 :: b3 :: b4 :: b5 :: b6 :: b7 :: b8 :: b9 :: b10 :: b11 :: b12 :: b13 :: b14 :: b15 :: b16 :: b17 :: b18 :: b19 :: b20 :: b21 :: b22 :: b23 :: tail).take (AmmInstruction.tagLen 1) = [1, b0, b1, b2, b3, b4, b5, b6, b7, b8, b9, b10, b11, b12, b13, b14, b15, b16, b17, b18, b19, b20, b21, b22, b23] := rfl
      rw [htake]
      constructor
      · rw [AmmInstruction.unpack_cons1 b0 b1 b2 b3 b4 b5 b6 b7 b8 b9 b10 b11 b12 b13 b14 b15 b16 b17 b18 b19 b20 b21 b22 b23 tail, AmmInstruction.unpack_cons1 b0 b1 b2 b3 b4 b5 b6 b7 b8 b9 b10 b11 b12 b13 b14 b15 b16 b17 b18 b19 b20 b21 b22 b23 []]
      · exact ⟨_, AmmInstruction.unpack_cons1 b0 b1 b2 b3 b4 b5 b6 b7 b8 b9 b10 b11 b12 b13 b14 b15 b16 b17 b18 b19 b20 b21 b22 b23 tail⟩
    · rcases rest with _ | ⟨b0, _ | ⟨b1, _ | ⟨b2, _ | ⟨b3, _ | ⟨b4, _ | ⟨b5, _ | ⟨b6, _ | ⟨b7, tail⟩⟩⟩⟩⟩⟩⟩⟩
      all_goals simp [AmmInstruction.tagLen] at hlen
      have htake : (2 :: b0 :: b1 :: b2 :: b3 :: b4 :: b5 :: b6 :: b7 :: tail).take (AmmInstruction.tagLen 2) = [2, b0, b1, b2, b3, b4, b5, b6, b7] := rfl
      rw [htake]
      constructor
      · rw [AmmInstruction.unpack_cons2 b0 b1 b2 b3 b4 b5 b6 b7 tail, AmmInstruction.unpack_cons2 b0 b1 b2 b3 b4 b5 b6 b7 []]
      · exact ⟨_, AmmInstruction.unpack_cons2 b0 b1 b2 b3 b4 b5 b6 b7 tail⟩
    · rcases rest with _ | ⟨b0, _ | ⟨b1, _ | ⟨b2, _ | ⟨b3, _ | ⟨b4, _ | ⟨b5, _ | ⟨b6, _ | ⟨b7, tail⟩⟩⟩⟩⟩⟩⟩⟩
      all_goals simp [AmmInstruction.tagLen] at hlen
      have htake : (3 :: b0 :: b1 :: b2 :: b3 :: b4 :: b5 :: b6 :: b7 :: tail).take (AmmInstruction.tagLen 3) = [3, b0, b1, b2, b3, b4, b5, b6, b7] := rfl
      rw [htake]
      constructor
      · rw [AmmInstruction.unpack_cons3 b0 b1 b2 b3 b4 b5 b6 b7 tail, AmmInstruction.unpack_cons3 b0 b1 b2 b3 b4 b5 b6 b7 []]
      · exact ⟨_, AmmInstruction.unpack_cons3 b0 b1 b2 b3 b4 b5 b6 b7 tail⟩
    · rcases rest with _ | ⟨b0, _ | ⟨b1, _ | ⟨b2, _ | ⟨b3, _ | ⟨b4, _ | ⟨b5, _ | ⟨b6, _ | ⟨b7, tail⟩⟩⟩⟩⟩⟩⟩⟩
      all_goals simp [AmmInstruction.tagLen] at hlen
      have htake : (4 :: b0 :: b1 :: b2 :: b3 :: b4 :: b5 :: b6 :: b7 :: tail).take (AmmInstruction.tagLen 4) = [4, b0, b1, b2, b3, b4, b5, b6, b7] := rfl
      rw [htake]
      constructor
      · rw [AmmInstruction.unpack_cons4 b0 b1 b2 b3 b4 b5 b6 b7 tail, AmmInstruction.unpack_cons4 b0 b1 b2 b3 b4 b5 b6 b7 []]
      · exact ⟨_, AmmInstruction.unpack_cons4 b0 b1 b2 b3 b4 b5 b6 b7 tail⟩

/-- Witness for C3: the empty buffer is rejected with the truncation
error, an unknown tag 9 is rejected, a 24-byte Swap buffer is truncated,
and a Harvest buffer with two trailing bytes decodes like its 9-byte
prefix. -/
theorem unpack_error_conditions_witness :
    AmmInstruction.unpack [] = .error .AccountDataTooSmall ∧
    AmmInstruction.unpack (9 :: List.replicate 24 0) =
      .error .InvalidInstructionData ∧
    AmmInstruction.unpack (1 :: List.replicate 23 0) =
      .error .AccountDataTooSmall ∧
    AmmInstruction.unpack (4 :: List.replicate 10 0) =
      AmmInstruction.unpack ((4 :: List.replicate 10 0).take 9) := by
  refine ⟨(unpack_error_conditions []).1 rfl, ?_, ?_, ?_⟩
  · exact (unpack_error_conditions _).2.1 9 (List.replicate 24 0) rfl
      (by decide)
  · exact (unpack_error_conditions _).2.2.1 1 (List.replicate 23 0) rfl
      (by decide) (by decide)
  · exact ((unpack_error_conditions _).2.2.2 4 (List.replicate 10 0) rfl
      (by decide) (by decide)).1

set_option maxRecDepth 10000

/-- Account handles are identified by their pubkey. -/
abbrev Pubkey := Nat

/-- src/utils/tokens.rs: `TokenTransferParams`, with fields in declaration
order. `authority_signer_seeds` carries the signer seed byte strings; the
code only ever inspects whether the set is empty. -/
structure TokenTransferParams where
  source : Pubkey
  destination : Pubkey
  amount : Nat
  authority : Pubkey
  authority_signer_seeds : List (List Nat)
  token_program : Pubkey
deriving DecidableEq, Repr

/-- src/utils/tokens.rs: `invoke_optionally_signed`. `invokeResult` is the
result the runtime reports for the cross-program call (`invoke` when the
seed set is empty, `invoke_signed` otherwise). The source calls the
runtime without `?` on either branch and returns `Ok(())` unconditionally,
so the reported result is discarded. -/
def invoke_optionally_signed (invokeResult : Except ProgramError Unit)
    (authority_signer_seeds : List (List Nat)) : Except ProgramError Unit :=
  if authority_signer_seeds.isEmpty then
    let _ := invokeResult
    .ok ()
  else
    let _ := invokeResult
    .ok ()

/-- src/utils/tokens.rs: `spl_token_transfer`. `instructionBuild` stands
for the result of the external `spl_token::instruction::transfer`
constructor, which is propagated with `?`; the call result of
`invoke_optionally_signed` is bound to the unused `result` variable and
`Ok(())` is returned. -/
def spl_token_transfer (instructionBuild : Except ProgramError Unit)
    (invokeResult : Except ProgramError Unit)
    (params : TokenTransferParams) : Except ProgramError Unit :=
  match instructionBuild with
  | .error e => .error e
  | .ok _ =>
    let _result :=
      invoke_optionally_signed invokeResult params.authority_signer_seeds
    .ok ()

/-- Number of binary digits of a natural number, with explicit fuel so
that the definition is structural (fuel 200 covers every value occurring
here). -/
def bitlenFuel : Nat → Nat → Nat
  | 0, _ => 0
  | fuel + 1, n => if n = 0 then 0 else bitlenFuel fuel (n / 2) + 1

/-- Number of binary digits of a natural number. -/
def bitlen (n : Nat) : Nat := bitlenFuel 200 n

/-- Round `n / 2 ^ k` to the nearest integer, ties to even (the IEEE-754
default rounding), for `k ≥ 1`. -/
def rneDiv (n k : Nat) : Nat :=
  let q := n / 2 ^ k
  let r := n % 2 ^ k
  let half := 2 ^ (k - 1)
  if r < half then q
  else if half < r then q + 1
  else if q % 2 = 0 then q else q + 1

/-- Round a nonnegative integer significand to at most 53 bits, rounding
to nearest with ties to even, keeping the magnitude (the result is the
input with its digits below bit `len - 53` replaced by the rounded
carry). This is IEEE binary64 rounding of the value `num` at any fixed
scale, for values inside the normal finite range. -/
def roundMantissa (num : Nat) : Nat :=
  let L := bitlen num
  if L ≤ 53 then num
  else rneDiv num (L - 53) * 2 ^ (L - 53)

/-- The integer significand of the IEEE binary64 literal `0.005` at scale
`2 ^ 60`: the double nearest to 0.005 is 5764607523034235 / 2 ^ 60
(0.005 * 2 ^ 60 = 5764607523034234.88 rounds up). -/
def f64Lit0_005Num : Nat := 5764607523034235

/-- src/utils/swap.rs line 320: the fee `(amount as f64 * 0.005) as u64`
under exact IEEE-754 binary64 semantics. `roundMantissa amount` is
`amount as f64` (round to nearest, ties to even; exact below `2 ^ 53`);
multiplying by the 0.005 literal gives the exact product at scale
`2 ^ 60`, which is rounded back to a 53-bit significand; `as u64`
truncates the nonnegative result toward zero, which is division by
`2 ^ 60` at that scale. -/
def fee_f64 (amount : Nat) : Nat :=
  roundMantissa (roundMantissa amount * f64Lit0_005Num) / 2 ^ 60

/-- Environment of an `after_transfer` invocation: the token balance the
program-source ("kin") account reports, and the collaborator results of
the two transfer legs. `kinBalance` is modelled from the spec:
`get_token_balance` lives in utils/account.rs, which is not under src/;
per spec §4.4 it reads the token account balance. -/
structure AfterTransferEnv where
  kinBalance : Nat
  instructionBuild1 : Except ProgramError Unit
  invokeResult1 : Except ProgramError Unit
  instructionBuild2 : Except ProgramError Unit
  invokeResult2 : Except ProgramError Unit

/-- src/utils/swap.rs: `after_transfer`. Binds six accounts in order,
derives the program authority seeds, then (1) transfers the entire
current balance of the program source account to the destination and
(2) transfers `(amount as f64 * 0.005) as u64` from the program fee
source account to the fee recipient, both signed with the derived seeds.
Returns the handler result together with the attempted transfers in
order. `seeds` stands for the derived signer seed set (the constant
domain string plus bump), which is always nonempty. -/
def after_transfer (env : AfterTransferEnv) (seeds : List (List Nat))
    (accounts : List Pubkey) (amount : Nat) :
    Except ProgramError Unit × List TokenTransferParams :=
  match accounts with
  | token_program_id :: program_account :: program_kin_account ::
      program_sol_account :: destination_account :: fee_recipient :: _ =>
    let token_amount := env.kinBalance
    let params1 : TokenTransferParams :=
      { source := program_kin_account, destination := destination_account,
        amount := token_amount, authority := program_account,
        authority_signer_seeds := seeds, token_program := token_program_id }
    match spl_token_transfer env.instructionBuild1 env.invokeResult1 params1 with
    | .error e => (.error e, [params1])
    | .ok _ =>
      let params2 : TokenTransferParams :=
        { source := program_sol_account, destination := fee_recipient,
          amount := fee_f64 amount, authority := program_account,
          authority_signer_seeds := seeds, token_program := token_program_id }
      match spl_token_transfer env.instructionBuild2 env.invokeResult2 params2 with
      | .error e => (.error e, [params1, params2])
      | .ok _ => (.ok (), [params1, params2])
  | _ => (.error .NotEnoughAccountKeys, [])

/-- Environment of a `harvest` invocation: the collaborator results of the
one token transfer. -/
structure HarvestEnv where
  instructionBuild : Except ProgramError Unit
  invokeResult : Except ProgramError Unit

/-- src/utils/swap.rs: `harvest`. Binds four accounts in order, derives
the signer seeds and performs one program-signed token transfer of
exactly `amount` from the program source account to the destination.
Returns the handler result together with the attempted transfer. -/
def harvest (env : HarvestEnv) (seeds : List (List Nat))
    (accounts : List Pubkey) (amount : Nat) :
    Except ProgramError Unit × List TokenTransferParams :=
  match accounts with
  | token_program_id :: program_account :: program_sol_account ::
      user_account :: _ =>
    let params : TokenTransferParams :=
      { source := program_sol_account, destination := user_account,
        amount := amount, authority := program_account,
        authority_signer_seeds := seeds, token_program := token_program_id }
    (spl_token_transfer env.instructionBuild env.invokeResult params, [params])
  | _ => (.error .NotEnoughAccountKeys, [])

/-- Claim C1 (code bug): the wrappers do NOT surface collaborator
failures. `invoke_optionally_signed` calls the runtime without `?` and
returns `Ok(())` on both branches, and `spl_token_transfer` binds its
result to an unused variable, so `spl_token_transfer` succeeds whatever
error the token program reports; in particular a Harvest whose `amount`
exceeds the source balance (token program reports the insufficient-funds
custom error 1) still returns success from the handler instead of
aborting with that error. -/
theorem spl_token_transfer_swallows_invoke_error :
    (∀ (e : ProgramError) (params : TokenTransferParams),
        spl_token_transfer (.ok ()) (.error e) params = .ok ()) ∧
    (harvest ⟨.ok (), .error (.Custom 1)⟩ [[107], [255]] [10, 11, 12, 13]
        1000000).1 = .ok () := by
  exact ⟨fun e params => rfl, rfl⟩

/-- Claim C4, counterexample to the floor formula: at
amount = 2 ^ 63 the fee leg of `after_transfer` transfers the
binary64-computed 46116860184273880, while floor(amount * 0.005)
= amount * 5 / 1000 = 46116860184273879. -/
theorem after_transfer_fee_counterexample :
    (after_transfer ⟨77, .ok (), .ok (), .ok (), .ok ()⟩ [[0]]
        [0, 1, 2, 3, 4, 5] 9223372036854775808).2 =
      [⟨2, 4, 77, 1, [[0]], 0⟩,
       ⟨3, 5, 46116860184273880, 1, [[0]], 0⟩] ∧
    9223372036854775808 * 5 / 1000 = 46116860184273879 ∧
    (46116860184273880 : Nat) ≠ 46116860184273879 := by
  refine ⟨by decide, by decide, by decide⟩

/-- Claim C4 (amended): for every PostTransfer invocation whose transfer
instructions construct successfully, the main leg transfers the entire
current balance of the program source account regardless of `amount`, and
the fee leg transfers `(amount as f64 * 0.005) as u64` — the IEEE
binary64 product truncated to an integer, which for amount = 1000 is
exactly 5 — from the fee source account to the fee recipient, both under
the derived authority. -/
theorem after_transfer_full_balance_and_fee (kinBal : Nat)
    (i1 i2 : Except ProgramError Unit) (seeds : List (List Nat))
    (t pa kin sol dst fr : Pubkey) (rest : List Pubkey) (amount : Nat) :
    after_transfer ⟨kinBal, .ok (), i1, .ok (), i2⟩ seeds
        (t :: pa :: kin :: sol :: dst :: fr :: rest) amount =
      (.ok (), [⟨kin, dst, kinBal, pa, seeds, t⟩,
                ⟨sol, fr, fee_f64 amount, pa, seeds, t⟩]) ∧
    fee_f64 1000 = 5 := by
  exact ⟨rfl, by decide⟩

/-- An `AccountMeta` of the external pool instruction. -/
structure AccountMeta where
  pubkey : Pubkey
  is_signer : Bool
  is_writable : Bool
deriving DecidableEq, Repr

/-- `AccountMeta::new` — writable. -/
def AccountMeta.new (k : Pubkey) (s : Bool) : AccountMeta := ⟨k, s, true⟩

/-- `AccountMeta::new_readonly`. -/
def AccountMeta.new_readonly (k : Pubkey) (s : Bool) : AccountMeta := ⟨k, s, false⟩

/-- Observable steps of the Swap handler, in execution order. -/
inductive SwapEvent where
  | deriveAuthority
  | snapshot (account : Pubkey) (balance : Nat)
  | externalInvoke (pool_program : Pubkey) (accounts : List AccountMeta)
      (instructionTag amount_in min_amount_out : Nat)
  | checkSpent (account : Pubkey) (initial expected : Nat)
  | checkReceived (account : Pubkey) (initial minOut : Nat)
deriving DecidableEq, Repr

/-- Modelled from the spec: `check_tokens_spent` (utils/account.rs is not
under src/) fails with the balance-guard error exactly when
(baseline - current) differs from the expected spent amount (§4.4). -/
def check_tokens_spent (current baseline expected : Nat) :
    Except ProgramError Unit :=
  if baseline - current = expected then .ok ()
  else .error .UnexpectedBalanceChange

/-- Modelled from the spec: `check_tokens_received` (utils/account.rs is
not under src/) fails exactly when (current - baseline) is below the
minimum expected output (§4.4). -/
def check_tokens_received (current baseline minOut : Nat) :
    Except ProgramError Unit :=
  if current - baseline < minOut then .error .InsufficientOutput else .ok ()

/-- Environment of a Swap invocation. `allowPool` is modelled from the
spec: `raydium::check_pool_program_id` (protocol/raydium.rs is not under
src/) is the allow-list membership test. `quote` is modelled from the
spec: `get_pool_swap_amounts`, applied to the two caller amounts, returns
the final amount-in and the pool-computed minimum-out floor. `balanceBefore`/`balanceAfter` give the
token balances `get_token_balance` reads before and after the external
call, and `invokeResult` is what `invoke_signed` reports for it. -/
structure SwapEnv where
  allowPool : Pubkey → Bool
  quote : Nat → Nat → Except ProgramError (Nat × Nat)
  balanceBefore : Pubkey → Nat
  invokeResult : Except ProgramError Unit
  balanceAfter : Pubkey → Nat

/-- src/utils/swap.rs: `swap`. Matches the account list against the fixed
19-slot pattern (`NotEnoughAccountKeys` otherwise), validates the pool
program against the allow-list (`IncorrectProgramId` otherwise), derives
the program authority, obtains the pool-quoted amounts, raises the floor
to the caller minimum if larger, snapshots the direction-dependent input
and output balances, builds the 18-entry external account ordering with
the direction-dependent pair at positions 15 and 16, invokes the pool
program (opcode 9), and asserts the exact spent and minimum received
amounts. Returns the result together with the event trace. -/
def swap (env : SwapEnv) (accounts : List Pubkey)
    (token_a_amount_in token_b_amount_in min_token_amount_out : Nat) :
    Except ProgramError Unit × List SwapEvent :=
  match accounts with
  | [program_account, program_token_a_account, program_token_b_account,
     pool_program_id, pool_coin_token_account, pool_pc_token_account,
     spl_token_id, amm_id, amm_authority, amm_open_orders, amm_target,
     serum_market, serum_program_id, serum_bids, serum_asks,
     serum_event_queue, serum_coin_vault_account, serum_pc_vault_account,
     serum_vault_signer] =>
    if !env.allowPool pool_program_id then (.error .IncorrectProgramId, [])
    else
      match env.quote token_a_amount_in token_b_amount_in with
      | .error e => (.error e, [.deriveAuthority])
      | .ok (amount_in, poolMinOut) =>
        let min_amount_out :=
          if min_token_amount_out > poolMinOut then min_token_amount_out
          else poolMinOut
        let acct_in := if token_a_amount_in = 0 then program_token_b_account
          else program_token_a_account
        let acct_out := if token_a_amount_in = 0 then program_token_a_account
          else program_token_b_account
        let initial_balance_in := env.balanceBefore acct_in
        let initial_balance_out := env.balanceBefore acct_out
        let raydium_accounts :=
          [AccountMeta.new_readonly spl_token_id false,
           AccountMeta.new amm_id false,
           AccountMeta.new_readonly amm_authority false,
           AccountMeta.new amm_open_orders false,
           AccountMeta.new amm_target false,
           AccountMeta.new pool_coin_token_account false,
           AccountMeta.new pool_pc_token_account false,
           AccountMeta.new_readonly serum_program_id false,
           AccountMeta.new serum_market false,
           AccountMeta.new serum_bids false,
           AccountMeta.new serum_asks false,
           AccountMeta.new serum_event_queue false,
           AccountMeta.new serum_coin_vault_account false,
           AccountMeta.new serum_pc_vault_account false,
           AccountMeta.new_readonly serum_vault_signer false] ++
          (if token_a_amount_in = 0 then
            [AccountMeta.new program_token_b_account false,
             AccountMeta.new program_token_a_account false]
          else
            [AccountMeta.new program_token_a_account false,
             AccountMeta.new program_token_b_account false]) ++
          [AccountMeta.new_readonly program_account true]
        let ev0 : List SwapEvent := [.deriveAuthority,
          .snapshot acct_in initial_balance_in,
          .snapshot acct_out initial_balance_out,
          .externalInvoke pool_program_id raydium_accounts 9 amount_in
            min_amount_out]
        match env.invokeResult with
        | .error e => (.error e, ev0)
        | .ok _ =>
          let ev1 := ev0 ++ [.checkSpent acct_in initial_balance_in amount_in]
          match check_tokens_spent (env.balanceAfter acct_in)
              initial_balance_in amount_in with
          | .error e => (.error e, ev1)
          | .ok _ =>
            let ev2 := ev1 ++
              [.checkReceived acct_out initial_balance_out min_amount_out]
            match check_tokens_received (env.balanceAfter acct_out)
                initial_balance_out min_amount_out with
            | .error e => (.error e, ev2)
            | .ok _ => (.ok (), ev2)
  | _ => (.error .NotEnoughAccountKeys, [])

example :
    swap ⟨fun _ => true, fun _ _ => .ok (100, 90), fun _ => 1000, .ok (),
        fun k => if k = 1 then 900 else 1100⟩
      [0, 1, 2, 3, 4, 5, 6, 7, 8, 9, 10, 11, 12, 13, 14, 15, 16, 17, 18]
      100 0 95 =
    (.ok (),
     [.deriveAuthority, .snapshot 1 1000, .snapshot 2 1000,
      .externalInvoke 3
        [AccountMeta.new_readonly 6 false, AccountMeta.new 7 false,
         AccountMeta.new_readonly 8 false, AccountMeta.new 9 false,
         AccountMeta.new 10 false, AccountMeta.new 4 false,
         AccountMeta.new 5 false, AccountMeta.new_readonly 12 false,
         AccountMeta.new 11 false, AccountMeta.new 13 false,
         AccountMeta.new 14 false, AccountMeta.new 15 false,
         AccountMeta.new 16 false, AccountMeta.new 17 false,
         AccountMeta.new_readonly 18 false, AccountMeta.new 1 false,
         AccountMeta.new 2 false, AccountMeta.new_readonly 0 true]
        9 100 95,
      .checkSpent 1 1000 100, .checkReceived 2 1000 95]) := by decide

/-- Claim C5: Swap direction selection. When `token_a_amount_in` is
nonzero the token-A program account is the input side (snapshotted as the
input balance, placed first in the direction-dependent pair at positions
15/16 of the external account ordering, and targeted by the spent
assertion) and token-B is the output side (second of the pair, targeted
by the received assertion); when `token_a_amount_in` is zero the roles
are exactly reversed. The trace below shows all three places through the
shared `if token_a_amount_in = 0` selector. -/
theorem swap_direction_selection
    (allow : Pubkey → Bool) (bb ba : Pubkey → Nat)
    (pa A B pool pc ppc spl amm ama aoo amt smk spr sbd sas seq scv spv
      svs : Pubkey)
    (a b m ai pm : Nat)
    (hallow : allow pool = true)
    (hspent : bb (if a = 0 then B else A) - ba (if a = 0 then B else A) = ai)
    (hrecv : (if m > pm then m else pm) ≤
      ba (if a = 0 then A else B) - bb (if a = 0 then A else B)) :
    swap ⟨allow, fun _ _ => .ok (ai, pm), bb, .ok (), ba⟩
        [pa, A, B, pool, pc, ppc, spl, amm, ama, aoo, amt, smk, spr, sbd,
         sas, seq, scv, spv, svs] a b m =
      (.ok (),
       [.deriveAuthority,
        .snapshot (if a = 0 then B else A) (bb (if a = 0 then B else A)),
        .snapshot (if a = 0 then A else B) (bb (if a = 0 then A else B)),
        .externalInvoke pool
          ([AccountMeta.new_readonly spl false, AccountMeta.new amm false,
            AccountMeta.new_readonly ama false, AccountMeta.new aoo false,
            AccountMeta.new amt false, AccountMeta.new pc false,
            AccountMeta.new ppc false, AccountMeta.new_readonly spr false,
            AccountMeta.new smk false, AccountMeta.new sbd false,
            AccountMeta.new sas false, AccountMeta.new seq false,
            AccountMeta.new scv false, AccountMeta.new spv false,
            AccountMeta.new_readonly svs false] ++
           (if a = 0 then [AccountMeta.new B false, AccountMeta.new A false]
            else [AccountMeta.new A false, AccountMeta.new B false]) ++
           [AccountMeta.new_readonly pa true]) 9 ai
          (if m > pm then m else pm),
        .checkSpent (if a = 0 then B else A) (bb (if a = 0 then B else A)) ai,
        .checkReceived (if a = 0 then A else B)
          (bb (if a = 0 then A else B)) (if m > pm then m else pm)]) := by
  by_cases ha : a = 0
  · subst ha
    simp only [reduceIte] at hspent hrecv
    have hnl : ¬(ba A - bb A < if m > pm then m else pm) := by omega
    simp [swap, hallow, check_tokens_spent, check_tokens_received, hspent,
      hnl]
  · simp only [if_neg ha] at hspent hrecv
    have hnl : ¬(ba B - bb B < if m > pm then m else pm) := by omega
    simp [swap, hallow, check_tokens_spent, check_tokens_received, ha,
      hspent, hnl]

/-- First external-invocation event floor in a trace. -/
def firstInvokeMinOut : List SwapEvent → Option Nat
  | [] => none
  | SwapEvent.externalInvoke _ _ _ _ mo :: _ => some mo
  | _ :: rest => firstInvokeMinOut rest

/-- First received-assertion floor in a trace. -/
def firstReceivedFloor : List SwapEvent → Option Nat
  | [] => none
  | SwapEvent.checkReceived _ _ mo :: _ => some mo
  | _ :: rest => firstReceivedFloor rest

/-- Claim C6: the minimum-out floor placed in the external pool
instruction data and the floor used by the received-balance assertion
both equal max(min_token_amount_out, pool-computed floor): the caller
floor is never lowered, and is raised exactly when the pool floor is
larger. Stated for every invocation that reaches the assertions (the
spent assertion passes; the received assertion may pass or fail). -/
theorem swap_min_out_floor_is_max
    (allow : Pubkey → Bool) (bb ba : Pubkey → Nat)
    (pa A B pool pc ppc spl amm ama aoo amt smk spr sbd sas seq scv spv
      svs : Pubkey)
    (a b m ai pm : Nat)
    (hallow : allow pool = true)
    (hspent : bb (if a = 0 then B else A) - ba (if a = 0 then B else A)
      = ai) :
    firstInvokeMinOut
        ((swap ⟨allow, fun _ _ => .ok (ai, pm), bb, .ok (), ba⟩
          [pa, A, B, pool, pc, ppc, spl, amm, ama, aoo, amt, smk, spr,
           sbd, sas, seq, scv, spv, svs] a b m).2) = some (max m pm) ∧
    firstReceivedFloor
        ((swap ⟨allow, fun _ _ => .ok (ai, pm), bb, .ok (), ba⟩
          [pa, A, B, pool, pc, ppc, spl, amm, ama, aoo, amt, smk, spr,
           sbd, sas, seq, scv, spv, svs] a b m).2) = some (max m pm) := by
  by_cases ha : a = 0
  · subst ha
    simp only [reduceIte] at hspent
    by_cases hrc : ba A - bb A < if m > pm then m else pm
    · refine ⟨?_, ?_⟩ <;>
        simp [swap, hallow, check_tokens_spent, check_tokens_received,
          hspent, hrc, firstInvokeMinOut, firstReceivedFloor] <;>
        split_ifs <;> omega
    · refine ⟨?_, ?_⟩ <;>
        simp [swap, hallow, check_tokens_spent, check_tokens_received,
          hspent, hrc, firstInvokeMinOut, firstReceivedFloor] <;>
        split_ifs <;> omega
  · simp only [if_neg ha] at hspent
    by_cases hrc : ba B - bb B < if m > pm then m else pm
    · refine ⟨?_, ?_⟩ <;>
        simp [swap, hallow, check_tokens_spent, check_tokens_received, ha,
          hspent, hrc, firstInvokeMinOut, firstReceivedFloor] <;>
        split_ifs <;> omega
    · refine ⟨?_, ?_⟩ <;>
        simp [swap, hallow, check_tokens_spent, check_tokens_received, ha,
          hspent, hrc, firstInvokeMinOut, firstReceivedFloor] <;>
        split_ifs <;> omega

/-- Claim C7: if the supplied pool program identity is not on the
allow-list, the Swap handler fails with `IncorrectProgramId` (the
UntrustedCounterparty of the spec) with an empty trace: before the
authority derivation, before any balance snapshot and before any external
invocation. -/
theorem swap_untrusted_pool_rejected
    (allow : Pubkey → Bool) (bb ba : Pubkey → Nat)
    (q : Nat → Nat → Except ProgramError (Nat × Nat))
    (inv : Except ProgramError Unit)
    (pa A B pool pc ppc spl amm ama aoo amt smk spr sbd sas seq scv spv
      svs : Pubkey)
    (a b m : Nat)
    (hallow : allow pool = false) :
    swap ⟨allow, q, bb, inv, ba⟩
        [pa, A, B, pool, pc, ppc, spl, amm, ama, aoo, amt, smk, spr, sbd,
         sas, seq, scv, spv, svs] a b m =
      (.error .IncorrectProgramId, []) := by
  simp [swap, hallow]

/-- Claim C8: a Swap account list whose length is not exactly 19 fails
with `NotEnoughAccountKeys` (the MalformedAccountSet of the spec) with an
empty trace, before any snapshot or external call. -/
theorem swap_account_arity_mismatch (env : SwapEnv)
    (accounts : List Pubkey) (a b m : Nat) (h : accounts.length ≠ 19) :
    swap env accounts a b m = (.error .NotEnoughAccountKeys, []) := by
  rcases accounts with _ | ⟨x0, _ | ⟨x1, _ | ⟨x2, _ | ⟨x3, _ | ⟨x4, _ | ⟨x5, _ | ⟨x6, _ | ⟨x7, _ | ⟨x8, _ | ⟨x9, _ | ⟨x10, _ | ⟨x11, _ | ⟨x12, _ | ⟨x13, _ | ⟨x14, _ | ⟨x15, _ | ⟨x16, _ | ⟨x17, _ | ⟨x18, _ | ⟨x19, rest⟩⟩⟩⟩⟩⟩⟩⟩⟩⟩⟩⟩⟩⟩⟩⟩⟩⟩⟩⟩
  all_goals first
    | rfl
    | simp at h

/-- Witness for C5 in both directions at concrete balances: quote
(100, 90), caller floor 95, input balance 1000 before and 900 after,
output balance 1000 before and 1100 after. -/
theorem swap_direction_selection_witness :
    swap ⟨fun _ => true, fun _ _ => .ok (100, 90), fun _ => 1000, .ok (),
        fun k => if k = 1 then 900 else 1100⟩
      [0, 1, 2, 3, 4, 5, 6, 7, 8, 9, 10, 11, 12, 13, 14, 15, 16, 17, 18]
      100 0 95 =
    (.ok (),
     [.deriveAuthority, .snapshot 1 1000, .snapshot 2 1000,
      .externalInvoke 3
        [AccountMeta.new_readonly 6 false, AccountMeta.new 7 false,
         AccountMeta.new_readonly 8 false, AccountMeta.new 9 false,
         AccountMeta.new 10 false, AccountMeta.new 4 false,
         AccountMeta.new 5 false, AccountMeta.new_readonly 12 false,
         AccountMeta.new 11 false, AccountMeta.new 13 false,
         AccountMeta.new 14 false, AccountMeta.new 15 false,
         AccountMeta.new 16 false, AccountMeta.new 17 false,
         AccountMeta.new_readonly 18 false, AccountMeta.new 1 false,
         AccountMeta.new 2 false, AccountMeta.new_readonly 0 true]
        9 100 95,
      .checkSpent 1 1000 100, .checkReceived 2 1000 95] ) ∧
    swap ⟨fun _ => true, fun _ _ => .ok (100, 90), fun _ => 1000, .ok (),
        fun k => if k = 2 then 900 else 1100⟩
      [0, 1, 2, 3, 4, 5, 6, 7, 8, 9, 10, 11, 12, 13, 14, 15, 16, 17, 18]
      0 100 95 =
    (.ok (),
     [.deriveAuthority, .snapshot 2 1000, .snapshot 1 1000,
      .externalInvoke 3
        [AccountMeta.new_readonly 6 false, AccountMeta.new 7 false,
         AccountMeta.new_readonly 8 false, AccountMeta.new 9 false,
         AccountMeta.new 10 false, AccountMeta.new 4 false,
         AccountMeta.new 5 false, AccountMeta.new_readonly 12 false,
         AccountMeta.new 11 false, AccountMeta.new 13 false,
         AccountMeta.new 14 false, AccountMeta.new 15 false,
         AccountMeta.new 16 false, AccountMeta.new 17 false,
         AccountMeta.new_readonly 18 false, AccountMeta.new 2 false,
         AccountMeta.new 1 false, AccountMeta.new_readonly 0 true]
        9 100 95,
      .checkSpent 2 1000 100, .checkReceived 1 1000 95] ) := by
  constructor
  · have h := swap_direction_selection (fun _ => true)
      (fun _ => 1000) (fun k => if k = 1 then 900 else 1100)
      0 1 2 3 4 5 6 7 8 9 10 11 12 13 14 15 16 17 18
      100 0 95 100 90 rfl (by decide) (by decide)
    simpa using h
  · have h := swap_direction_selection (fun _ => true)
      (fun _ => 1000) (fun k => if k = 2 then 900 else 1100)
      0 1 2 3 4 5 6 7 8 9 10 11 12 13 14 15 16 17 18
      0 100 95 100 90 rfl (by decide) (by decide)
    simpa using h

/-- Witness for C6 at the same concrete instantiation: the used floor is
max(95, 90) = 95. -/
theorem swap_min_out_floor_is_max_witness :
    firstInvokeMinOut
      ((swap ⟨fun _ => true, fun _ _ => .ok (100, 90), fun _ => 1000,
          .ok (), fun k => if k = 1 then 900 else 1100⟩
        [0, 1, 2, 3, 4, 5, 6, 7, 8, 9, 10, 11, 12, 13, 14, 15, 16, 17, 18]
        100 0 95).2) = some 95 := by
  have h := (swap_min_out_floor_is_max (fun _ => true)
    (fun _ => 1000) (fun k => if k = 1 then 900 else 1100)
    0 1 2 3 4 5 6 7 8 9 10 11 12 13 14 15 16 17 18
    100 0 95 100 90 rfl (by decide)).1
  simpa using h

/-- Witness for C7: a pool identity the allow-list rejects makes the
handler fail with an empty trace. -/
theorem swap_untrusted_pool_rejected_witness :
    swap ⟨fun _ => false, fun _ _ => .ok (100, 90), fun _ => 1000, .ok (),
        fun _ => 1000⟩
      [0, 1, 2, 3, 4, 5, 6, 7, 8, 9, 10, 11, 12, 13, 14, 15, 16, 17, 18]
      100 0 95 = (.error .IncorrectProgramId, []) :=
  swap_untrusted_pool_rejected (fun _ => false) (fun _ => 1000)
    (fun _ => 1000) (fun _ _ => .ok (100, 90)) (.ok ())
    0 1 2 3 4 5 6 7 8 9 10 11 12 13 14 15 16 17 18 100 0 95 rfl

/-- Witness for C8: 18 accounts instead of 19 fail with an empty trace. -/
theorem swap_account_arity_mismatch_witness :
    swap ⟨fun _ => true, fun _ _ => .ok (100, 90), fun _ => 1000, .ok (),
        fun _ => 1000⟩
      [0, 1, 2, 3, 4, 5, 6, 7, 8, 9, 10, 11, 12, 13, 14, 15, 16, 17]
      100 0 95 = (.error .NotEnoughAccountKeys, []) :=
  swap_account_arity_mismatch _ _ 100 0 95 (by decide)

/-- Observable steps of account creation, in execution order. -/
inductive SysEvent where
  | transferLamports (source destination : Pubkey) (amount : Nat)
  | allocate (account : Pubkey) (size : Nat) (signed : Bool)
  | assign (account : Pubkey) (owner : Pubkey) (signed : Bool)
deriving DecidableEq, Repr

/-- Environment of a CreateAccount invocation. `rentMinimumBalance` is
modelled from the spec: `Rent::minimum_balance` of the hosting runtime
returns the rent-exempt minimum for a byte size (spec glossary). The
remaining fields are the created account's current lamport balance and
the results the runtime reports for the three system-program calls. -/
structure CreateEnv where
  rentMinimumBalance : Nat → Nat
  newAccountLamports : Nat
  transferResult : Except ProgramError Unit
  allocateResult : Except ProgramError Unit
  assignResult : Except ProgramError Unit

/-- src/utils/swap.rs: `create_or_allocate_account_raw`. Computes
`required_lamports = rent.minimum_balance(size).max(1)
.saturating_sub(lamports)`; if positive, transfers
`required_lamports * 3` lamports from the payer — an unchecked u64
multiplication that wraps, hence the `% 2 ^ 64`; then allocates `size`
bytes and assigns the account to the owning program, both via
`invoke_signed` with the derived seeds. Each runtime call result is
propagated with `?`. Returns the result with the event trace. -/
def create_or_allocate_account_raw (env : CreateEnv) (program_id : Pubkey)
    (new_account payer : Pubkey) (size : Nat) :
    Except ProgramError Unit × List SysEvent :=
  let required_lamports :=
    max (env.rentMinimumBalance size) 1 - env.newAccountLamports
  let fundEvents : List SysEvent :=
    if required_lamports > 0 then
      [.transferLamports payer new_account (required_lamports * 3 % 2 ^ 64)]
    else []
  let fundResult : Except ProgramError Unit :=
    if required_lamports > 0 then env.transferResult else .ok ()
  match fundResult with
  | .error e => (.error e, fundEvents)
  | .ok _ =>
    match env.allocateResult with
    | .error e => (.error e, fundEvents ++ [.allocate new_account size true])
    | .ok _ =>
      match env.assignResult with
      | .error e =>
        (.error e, fundEvents ++ [.allocate new_account size true,
          .assign new_account program_id true])
      | .ok _ =>
        (.ok (), fundEvents ++ [.allocate new_account size true,
          .assign new_account program_id true])

/-- src/utils/swap.rs: `create_program_account`. Binds the new account,
payer, rent sysvar and system program from the account list, derives the
program address and bump for the signer seeds, and calls
`create_or_allocate_account_raw` with `size`. -/
def create_program_account (env : CreateEnv) (program_id : Pubkey)
    (accounts : List Pubkey) (size : Nat) :
    Except ProgramError Unit × List SysEvent :=
  match accounts with
  | program_account_info :: payer_account_info :: _rent_info ::
      _system_account_info :: _ =>
    create_or_allocate_account_raw env program_id program_account_info
      payer_account_info size
  | _ => (.error .NotEnoughAccountKeys, [])

/-- Claim C9, counterexample: (1) with rent minimum 2 ^ 63 and balance 0
the shortfall is 2 ^ 63, but the amount transferred is
(3 * 2 ^ 63) mod 2 ^ 64 = 2 ^ 63, not 3 times the shortfall; (2) with
rent minimum 0 and balance 0 the account is not below the rent-exempt
minimum, yet the `.max(1)` in the code still triggers a funding transfer
of 3 lamports. -/
theorem create_account_counterexample :
    ((create_program_account
        ⟨fun _ => 9223372036854775808, 0, .ok (), .ok (), .ok ()⟩ 77
        [1, 2, 3, 4] 100).2 =
      [.transferLamports 2 1 9223372036854775808,
       .allocate 1 100 true, .assign 1 77 true]) ∧
    (9223372036854775808 : Nat) ≠ 3 * 9223372036854775808 ∧
    ((create_program_account ⟨fun _ => 0, 0, .ok (), .ok (), .ok ()⟩ 77
        [1, 2, 3, 4] 100).2 =
      [.transferLamports 2 1 3, .allocate 1 100 true,
       .assign 1 77 true]) := by
  refine ⟨by decide, by decide, by decide⟩

/-- Claim C9 (amended): with shortfall s = max(rent-exempt minimum, 1)
saturating-minus the current balance, a CreateAccount(size) invocation
whose system calls succeed transfers (3 * s) mod 2 ^ 64 from the payer
when s is positive and makes no funding transfer when s is zero, then
allocates `size` bytes and assigns ownership to the program, both signed
with the derived authority seeds; when 3 * s does not overflow u64, the
account afterwards holds at least the rent-exempt minimum. -/
theorem create_program_account_amended (rentMin : Nat → Nat) (bal : Nat)
    (pid n p r sys : Pubkey) (rest : List Pubkey) (size : Nat) :
    create_program_account ⟨rentMin, bal, .ok (), .ok (), .ok ()⟩ pid
        (n :: p :: r :: sys :: rest) size =
      (.ok (),
       (if max (rentMin size) 1 - bal > 0 then
          [SysEvent.transferLamports p n
            ((max (rentMin size) 1 - bal) * 3 % 2 ^ 64)]
        else []) ++
       [.allocate n size true, .assign n pid true]) ∧
    ((max (rentMin size) 1 - bal) * 3 < 2 ^ 64 →
      rentMin size ≤ bal + (max (rentMin size) 1 - bal) * 3 % 2 ^ 64) := by
  constructor
  · simp only [create_program_account, create_or_allocate_account_raw]
    by_cases hs : max (rentMin size) 1 - bal > 0 <;> simp [hs]
  · intro hlt
    rw [Nat.mod_eq_of_lt hlt]
    have hub := Nat.le_max_left (rentMin size) 1
    omega

/-- Witness for the amended C9 at rent minimum 890880, balance 0, size
100: the shortfall is 890880, the transfer is 2672640 = 3 * 890880, and
the account ends at or above the minimum. -/
theorem create_program_account_amended_witness :
    (create_program_account
        ⟨fun _ => 890880, 0, .ok (), .ok (), .ok ()⟩ 77
        [1, 2, 3, 4, 9] 100 =
      (.ok (), [SysEvent.transferLamports 2 1 2672640,
        .allocate 1 100 true, .assign 1 77 true])) ∧
    (890880 : Nat) ≤ 0 + (max 890880 1 - 0) * 3 % 2 ^ 64 := by
  have h := create_program_account_amended (fun _ => 890880) 0 77 1 2 3 4
    [9] 100
  refine ⟨?_, ?_⟩
  · have h1 := h.1
    simpa using h1
  · simpa using h.2 (by decide)

/-- Claim C10: the top-up amount is `required_lamports * 3` with
unchecked (wrapping) u64 multiplication: the requested amount is always
(3 * s) mod 2 ^ 64, and whenever the shortfall s exceeds
(2 ^ 64 - 1) / 3 the transferred amount wraps and is strictly less than
the mathematical product 3 * s. -/
theorem create_account_top_up_wrapping (rentMin : Nat → Nat) (bal : Nat)
    (pid n p r sys : Pubkey) (rest : List Pubkey) (size : Nat)
    (hbig : (2 ^ 64 - 1) / 3 < max (rentMin size) 1 - bal) :
    (create_program_account ⟨rentMin, bal, .ok (), .ok (), .ok ()⟩ pid
        (n :: p :: r :: sys :: rest) size).2.headD
        (.allocate 0 0 false) =
      .transferLamports p n ((max (rentMin size) 1 - bal) * 3 % 2 ^ 64) ∧
    (max (rentMin size) 1 - bal) * 3 % 2 ^ 64 <
      (max (rentMin size) 1 - bal) * 3 := by
  constructor
  · simp only [create_program_account, create_or_allocate_account_raw]
    have hs : max (rentMin size) 1 - bal > 0 := by omega
    simp [hs]
  · have h1 : (max (rentMin size) 1 - bal) * 3 % 2 ^ 64 < 2 ^ 64 :=
      Nat.mod_lt _ (by norm_num)
    have h2 : 2 ^ 64 ≤ (max (rentMin size) 1 - bal) * 3 := by omega
    exact lt_of_lt_of_le h1 h2

/-- Witness for C10 at rent minimum 2 ^ 63 and balance 0: the shortfall
2 ^ 63 exceeds (2 ^ 64 - 1) / 3, and the transferred amount
(3 * 2 ^ 63) mod 2 ^ 64 = 2 ^ 63 is less than 3 * 2 ^ 63. -/
theorem create_account_top_up_wrapping_witness :
    (create_program_account
        ⟨fun _ => 9223372036854775808, 0, .ok (), .ok (), .ok ()⟩ 77
        [1, 2, 3, 4] 100).2.headD (.allocate 0 0 false) =
      .transferLamports 2 1 9223372036854775808 ∧
    (9223372036854775808 : Nat) < 27670116110564327424 := by
  have h := create_account_top_up_wrapping (fun _ => 9223372036854775808)
    0 77 1 2 3 4 [] 100 (by decide)
  refine ⟨?_, ?_⟩
  · have h1 := h.1
    simpa using h1
  · have h2 := h.2
    simpa using h2
